import Mathlib

/-!
Shallow embedding of the audio-sensor monitoring program (`final.py`, with the
assignment skeleton `audiosensors.py`).  Loudness samples are modelled as
rationals, device buffers as lists of rationals (oldest first), and the
module-level statistics functions as Lean functions on those lists.  The
`print`-based outputs of the statistics functions are modelled as `Option`
values: `none` stands for the "no data" message branch, `some` for the branch
that prints numeric results.
-/

/-- Constant `FAULT_THRESHOLD = 10` (final.py line 15). -/
def FAULT_THRESHOLD : ℚ := 10

/-- Buffer capacity used by `log_sound` in final.py (lines 98-99): 100. -/
def BUFFER_CAPACITY : Nat := 100

/-- `np.mean` on a list of rationals: sum divided by length (the guard
`len > 0` is always checked by callers in final.py before calling it). -/
def npMean (l : List ℚ) : ℚ := l.sum / l.length

/-- `np.var` on a list of rationals: numpy's default population variance,
the mean of the squared deviations from the mean (ddof = 0). -/
def npVar (l : List ℚ) : ℚ := npMean (l.map (fun x => (x - npMean l) ^ 2))

/-- One buffer update in `log_sound` (final.py lines 97-99):
`buffer[index].append(volume)` followed by
`if len(buffer[index]) > N: buffer[index] = buffer[index][-N:]`.
The Python slice `b[-N:]` keeps the last `N` elements, i.e. drops
`len(b) - N` from the front. -/
def pushSample (N : Nat) (buf : List ℚ) (v : ℚ) : List ℚ :=
  let b := buf ++ [v]
  if N < b.length then b.drop (b.length - N) else b

/-- The buffer obtained by starting from the empty buffer (final.py line 168,
`buffer.append([])`) and pushing the values `vs` in order. -/
def pushAll (N : Nat) (vs : List ℚ) : List ℚ := vs.foldl (pushSample N) []

/-- `calculate_device_stats` (final.py lines 50-59): for a non-empty buffer it
prints mean and variance (modelled as `some (mean, var)`); for an empty buffer
it prints a "no data" message (modelled as `none`). -/
def calculate_device_stats (b : List ℚ) : Option (ℚ × ℚ) :=
  if 0 < b.length then some (npMean b, npVar b) else none

/-- The concatenation (`np.concatenate`) of the non-empty buffers
(final.py line 43). -/
def combinedBuffer (bufs : List (List ℚ)) : List ℚ :=
  (bufs.filter (fun b => decide (0 < b.length))).flatten

/-- `calculate_combined_stats` (final.py lines 38-48): if some buffer is
non-empty, concatenates the non-empty buffers and prints their mean and
variance (`some (mean, var)`); otherwise prints "no data" (`none`). -/
def calculate_combined_stats (bufs : List (List ℚ)) : Option (ℚ × ℚ) :=
  if bufs.any (fun b => decide (0 < b.length)) then
    some (npMean (combinedBuffer bufs), npVar (combinedBuffer bufs))
  else none

/-- The per-device message printed by `detect_faulty_sources`
(final.py lines 61-69). -/
inductive DeviceFlag : Type
  | faulty : DeviceFlag
  | noData : DeviceFlag
  | ok : DeviceFlag
deriving DecidableEq

/-- The branch taken by `detect_faulty_sources` for one buffer
(final.py lines 65-69): `if len(b) > 0 and np.mean(b) < FAULT_THRESHOLD`
prints a faulty warning, `elif len(b) == 0` prints a no-data message,
otherwise nothing is printed for that device. -/
def detectFlag (b : List ℚ) : DeviceFlag :=
  if 0 < b.length ∧ npMean b < FAULT_THRESHOLD then DeviceFlag.faulty
  else if b.length = 0 then DeviceFlag.noData
  else DeviceFlag.ok

/-- `detect_faulty_sources` over the whole buffer list (final.py line 65). -/
def detect_faulty_sources (bufs : List (List ℚ)) : List DeviceFlag :=
  bufs.map detectFlag

-- C1: the pushed buffer is always the suffix of the pushed values.

theorem pushSample_drop (N : Nat) (vs : List ℚ) (v : ℚ) :
    pushSample N (vs.drop (vs.length - N)) v
      = (vs ++ [v]).drop ((vs ++ [v]).length - N) := by
  have hlen : (vs.drop (vs.length - N)).length = vs.length - (vs.length - N) :=
    List.length_drop _ _
  rcases le_or_lt N vs.length with h | h
  · have hN : vs.length - (vs.length - N) = N := by omega
    simp only [pushSample]
    have hcond : N < (vs.drop (vs.length - N) ++ [v]).length := by
      simp only [List.length_append, List.length_singleton, hlen, hN]; omega
    rw [if_pos hcond]
    have hd1 : (vs.drop (vs.length - N) ++ [v]).length - N = 1 := by
      simp only [List.length_append, List.length_singleton, hlen, hN]; omega
    rw [hd1]
    rcases Nat.eq_zero_or_pos N with hN0 | hN0
    · subst hN0
      have hr : (vs ++ [v]).length - 0 = vs.length + 1 := by
        simp [List.length_append]
      rw [hr, Nat.sub_zero, List.drop_length]
      have hfull : (vs ++ [v]).length ≤ vs.length + 1 := by
        simp [List.length_append]
      simp [List.drop_eq_nil_of_le hfull]
    · have h1 : (vs.drop (vs.length - N) ++ [v]).drop 1
          = vs.drop (vs.length - N + 1) ++ [v] := by
        rw [List.drop_append_eq_append_drop, List.drop_drop]
        have hz : 1 - (vs.drop (vs.length - N)).length = 0 := by
          rw [hlen, hN]; omega
        rw [hz, List.drop_zero]
      have hK : (vs ++ [v]).length - N = vs.length - N + 1 := by
        simp only [List.length_append, List.length_singleton]; omega
      rw [h1, hK, List.drop_append_eq_append_drop]
      have h4 : vs.length - N + 1 - vs.length = 0 := by omega
      rw [h4, List.drop_zero]
  · have h0 : vs.length - N = 0 := by omega
    rw [h0, List.drop_zero]
    simp only [pushSample]
    have hcond : ¬ N < (vs ++ [v]).length := by
      simp only [List.length_append, List.length_singleton]; omega
    rw [if_neg hcond]
    have h1 : (vs ++ [v]).length - N = 0 := by
      simp only [List.length_append, List.length_singleton]; omega
    rw [h1, List.drop_zero]

theorem pushAll_eq_drop (N : Nat) (vs : List ℚ) :
    pushAll N vs = vs.drop (vs.length - N) := by
  induction vs using List.reverseRecOn with
  | nil => simp [pushAll]
  | append_singleton vs v ih =>
    have hfold : pushAll N (vs ++ [v]) = pushSample N (pushAll N vs) v := by
      simp [pushAll, List.foldl_append]
    rw [hfold, ih, pushSample_drop]

/-- Claim C1: for every sequence of pushes into one device's buffer of
capacity `N` (the append-then-truncate update of `log_sound`), the buffer
equals the most recent `N` pushed values in arrival order (the length-
`min totalPushes N` suffix of the pushed sequence), so its length is
exactly `min totalPushes N` and in particular never exceeds the capacity. -/
theorem buffer_bounded_recent_suffix (N : Nat) (vs : List ℚ) :
    pushAll N vs = vs.drop (vs.length - N) ∧
    (pushAll N vs).length = min vs.length N ∧
    (pushAll N vs).length ≤ N := by
  refine ⟨pushAll_eq_drop N vs, ?_, ?_⟩
  · rw [pushAll_eq_drop, List.length_drop]; omega
  · rw [pushAll_eq_drop, List.length_drop]; omega

-- C2: characterisation of the fault / no-data branches and the worked example.

/-- Claim C2: a device is flagged faulty iff its buffer is non-empty and its
mean loudness is below `FAULT_THRESHOLD`, and flagged no-data iff its buffer
is empty; with buffers `[50,52,51]` and `[2,1,3]` and threshold 10, the second
device is flagged faulty, the first is not, and the combined mean over the
pooled samples is 26.5 = 53/2. -/
theorem fault_flag_characterisation :
    (∀ b : List ℚ,
        (detectFlag b = DeviceFlag.faulty ↔ b ≠ [] ∧ npMean b < FAULT_THRESHOLD) ∧
        (detectFlag b = DeviceFlag.noData ↔ b = [])) ∧
    detectFlag [2, 1, 3] = DeviceFlag.faulty ∧
    detectFlag [50, 52, 51] = DeviceFlag.ok ∧
    (calculate_combined_stats [[50, 52, 51], [2, 1, 3]]).map Prod.fst
      = some (53 / 2) := by
  refine ⟨fun b => ?_, ?_, ?_, ?_⟩
  · unfold detectFlag
    split_ifs with h1 h2
    · have hb : b ≠ [] := List.length_pos.mp h1.1
      simp [hb, h1.2]
    · have hb : b = [] := List.length_eq_zero.mp h2
      subst hb
      simp
    · have hb : b ≠ [] := fun he => h2 (by rw [he]; rfl)
      have hnm : ¬ npMean b < FAULT_THRESHOLD :=
        fun hlt => h1 ⟨List.length_pos.mpr hb, hlt⟩
      simp [hb, hnm]
  · unfold detectFlag
    rw [if_pos ⟨by norm_num, by norm_num [npMean, FAULT_THRESHOLD]⟩]
  · have hm : ¬ (0 < ([50, 52, 51] : List ℚ).length ∧
        npMean [50, 52, 51] < FAULT_THRESHOLD) := by
      rintro ⟨-, hlt⟩
      norm_num [npMean, FAULT_THRESHOLD] at hlt
    unfold detectFlag
    rw [if_neg hm, if_neg (by norm_num)]
  · unfold calculate_combined_stats
    rw [if_pos (by decide)]
    have hcb : combinedBuffer [[50, 52, 51], [2, 1, 3]]
        = [(50 : ℚ), 52, 51, 2, 1, 3] := rfl
    rw [hcb]
    norm_num [npMean]

-- C3: empty buffers produce the explicit no-data branch, never a number.

/-- Claim C3: for every empty device buffer the per-device statistics take the
no-data branch (`none`), and when every buffer is empty the combined
statistics computation still completes, taking its no-data branch. -/
theorem empty_buffers_no_data :
    calculate_device_stats [] = none ∧
    (∀ b : List ℚ, b = [] → calculate_device_stats b = none) ∧
    (∀ bufs : List (List ℚ), (∀ b ∈ bufs, b = []) →
      calculate_combined_stats bufs = none) := by
  refine ⟨rfl, ?_, ?_⟩
  · rintro b rfl
    rfl
  · intro bufs hall
    unfold calculate_combined_stats
    have hno : ¬ (bufs.any (fun b => decide (0 < b.length)) = true) := by
      intro hany
      rw [List.any_eq_true] at hany
      obtain ⟨b, hb, hp⟩ := hany
      rw [hall b hb] at hp
      simp at hp
    rw [if_neg hno]

/-- Witness for C3: with two devices whose buffers are both empty, the
combined statistics computation returns the no-data marker. -/
theorem empty_buffers_no_data_witness :
    calculate_combined_stats [[], []] = none :=
  empty_buffers_no_data.2.2 [[], []] (by simp)

-- C9: the fault comparison is strict.

/-- Claim C9: a non-empty buffer whose mean loudness equals the fault
threshold exactly is not flagged faulty (the comparison in
`detect_faulty_sources` is strict `<`); such a device gets no message. -/
theorem fault_threshold_strict (b : List ℚ) (hb : b ≠ [])
    (hm : npMean b = FAULT_THRESHOLD) :
    detectFlag b ≠ DeviceFlag.faulty ∧ detectFlag b = DeviceFlag.ok := by
  have hnlt : ¬ npMean b < FAULT_THRESHOLD := by
    rw [hm]
    exact lt_irrefl _
  have h1 : ¬ (0 < b.length ∧ npMean b < FAULT_THRESHOLD) := fun h => hnlt h.2
  have h2 : ¬ b.length = 0 := by
    have := List.length_pos.mpr hb
    omega
  unfold detectFlag
  rw [if_neg h1, if_neg h2]
  exact ⟨by decide, rfl⟩

/-- Witness for C9: the buffer `[10]` has mean exactly the threshold 10 and
is not flagged faulty. -/
theorem fault_threshold_strict_witness :
    detectFlag [10] ≠ DeviceFlag.faulty ∧ detectFlag [10] = DeviceFlag.ok :=
  fault_threshold_strict [10] (by simp) (by norm_num [npMean, FAULT_THRESHOLD])

-- C10: np.var is the population variance (divide by n, not n - 1).

/-- The variance written the way the spec words it: the sum of squared
deviations from the mean, to be divided by `n` (population) rather than
`n - 1` (sample). -/
def sumSqDev (l : List ℚ) : ℚ := (l.map (fun x => (x - npMean l) ^ 2)).sum

/-- Claim C10: both the per-device and the combined variance are the
population variance: `np.var` equals the sum of squared deviations divided by
`n`; on `[0, 2]` this gives 1, while dividing by `n - 1` would give 2. -/
theorem variance_is_population :
    (∀ b : List ℚ, npVar b = sumSqDev b / b.length) ∧
    (∀ b : List ℚ, calculate_device_stats b
        = if 0 < b.length then some (npMean b, sumSqDev b / b.length)
          else none) ∧
    (∀ bufs : List (List ℚ), calculate_combined_stats bufs
        = if bufs.any (fun c => decide (0 < c.length)) then
            some (npMean (combinedBuffer bufs),
              sumSqDev (combinedBuffer bufs) / (combinedBuffer bufs).length)
          else none) ∧
    npVar [(0 : ℚ), 2] = 1 ∧
    sumSqDev [(0 : ℚ), 2] / ((2 : ℚ) - 1) = 2 ∧
    npVar [(0 : ℚ), 2] ≠ sumSqDev [(0 : ℚ), 2] / ((2 : ℚ) - 1) := by
  have hm : ∀ (l : List ℚ) (f : ℚ → ℚ),
      npMean (l.map f) = (l.map f).sum / l.length := by
    intro l f
    rw [npMean, List.length_map]
  have hvar : ∀ b : List ℚ, npVar b = sumSqDev b / b.length := fun b => hm b _
  refine ⟨hvar, ?_, ?_, ?_, ?_, ?_⟩
  · intro b
    unfold calculate_device_stats
    rw [hvar]
  · intro bufs
    unfold calculate_combined_stats
    rw [hvar]
  · rw [hvar]
    norm_num [sumSqDev, npMean]
  · norm_num [sumSqDev, npMean]
  · rw [hvar]
    norm_num [sumSqDev, npMean]

-- C4: the combined mean is the mean of the pooled samples and is invariant
-- under permutation of the device order.

theorem flatten_filter_nonempty (bufs : List (List ℚ)) :
    (bufs.filter (fun b => decide (0 < b.length))).flatten = bufs.flatten := by
  induction bufs with
  | nil => rfl
  | cons b rest ih =>
    by_cases hb : 0 < b.length
    · simp [List.filter_cons, hb, ih]
    · have hbe : b = [] := by
        cases b with
        | nil => rfl
        | cons x xs => simp at hb
      subst hbe
      simp [List.filter_cons, ih]

theorem npMean_flatten_perm {bufs bufs' : List (List ℚ)}
    (h : bufs'.Perm bufs) :
    npMean bufs'.flatten = npMean bufs.flatten := by
  unfold npMean
  rw [List.sum_flatten, List.sum_flatten, List.length_flatten,
    List.length_flatten, (h.map List.sum).sum_eq, (h.map List.length).sum_eq]

/-- Claim C4: for every non-empty collection of non-empty device buffers, the
combined mean computed by `calculate_combined_stats` (concatenating the
buffers) equals the mean of the pooled samples, and any permutation of the
device order yields the same combined mean. -/
theorem combined_mean_pooled (bufs bufs' : List (List ℚ))
    (hne : bufs ≠ []) (hall : ∀ b ∈ bufs, b ≠ []) (hperm : bufs'.Perm bufs) :
    (calculate_combined_stats bufs).map Prod.fst = some (npMean bufs.flatten) ∧
    (calculate_combined_stats bufs').map Prod.fst = some (npMean bufs.flatten) := by
  have hany : ∀ (l : List (List ℚ)), l ≠ [] → (∀ b ∈ l, b ≠ []) →
      l.any (fun b => decide (0 < b.length)) = true := by
    intro l hl halll
    cases l with
    | nil => exact absurd rfl hl
    | cons b rest =>
      have hb : 0 < b.length :=
        List.length_pos.mpr (halll b (List.mem_cons_self b rest))
      simp [List.any_cons, hb]
  have key : ∀ (l : List (List ℚ)), l ≠ [] → (∀ b ∈ l, b ≠ []) →
      (calculate_combined_stats l).map Prod.fst = some (npMean l.flatten) := by
    intro l hl halll
    unfold calculate_combined_stats
    rw [if_pos (hany l hl halll)]
    have hcb : combinedBuffer l = l.flatten := flatten_filter_nonempty l
    rw [Option.map_some', hcb]
  have hne' : bufs' ≠ [] := by
    intro he
    apply hne
    have hlen := hperm.length_eq
    rw [he] at hlen
    exact List.length_eq_zero.mp hlen.symm
  have hall' : ∀ b ∈ bufs', b ≠ [] := fun b hb => hall b (hperm.mem_iff.mp hb)
  have h2 := key bufs' hne' hall'
  rw [npMean_flatten_perm hperm] at h2
  exact ⟨key bufs hne hall, h2⟩

/-- Witness for C4: pooling the buffers `[1]` and `[2]` in either device
order gives the same combined mean, the mean of the pooled samples. -/
theorem combined_mean_pooled_witness :
    (calculate_combined_stats [[1], [2]]).map Prod.fst
      = some (npMean ([[1], [2]] : List (List ℚ)).flatten) ∧
    (calculate_combined_stats [[2], [1]]).map Prod.fst
      = some (npMean ([[1], [2]] : List (List ℚ)).flatten) :=
  combined_mean_pooled [[1], [2]] [[2], [1]] (by decide) (by decide)
    (List.Perm.swap _ _ _)

-- C5: behaviour of one iteration of the capture loop of log_sound.

/-- Result of one `stream.read` in the capture loop: either a successfully
read frame whose loudness sample was computed, or a raised exception. -/
inductive ReadOutcome : Type
  | sample : ℚ → ReadOutcome
  | exn : ReadOutcome
deriving DecidableEq

/-- State of one capture thread: its device buffer and whether its
while-loop has exited. -/
structure WorkerState : Type where
  buf : List ℚ
  stopped : Bool
deriving DecidableEq

/-- One iteration of the while-loop in `log_sound` (final.py lines 86-111):
if the loop already exited nothing happens; on a successful read the volume
is pushed (append, truncate to the last 100) and the loop breaks only when
`quit_flag` is set (lines 104-108); on an exception the error is printed and
the loop breaks (lines 109-111). -/
def log_sound_step (q : Bool) (s : WorkerState) (r : ReadOutcome) : WorkerState :=
  if s.stopped then s
  else
    match r with
    | ReadOutcome.sample v =>
        { buf := pushSample BUFFER_CAPACITY s.buf v, stopped := q }
    | ReadOutcome.exn => { buf := s.buf, stopped := true }

/-- Counterexample to C5 as stated: in a running capture loop (quit flag not
set, empty buffer), a single read exception leaves the loop terminated — the
`except` branch of `log_sound` breaks instead of continuing. -/
theorem read_error_stops_loop :
    (log_sound_step false { buf := [], stopped := false }
        ReadOutcome.exn).stopped = true := rfl

/-- Amended C5: when a frame read raises in a running capture loop, the error
is printed and the loop terminates (`break`): the state becomes stopped with
the buffer unchanged.  A single bad frame ends that device's monitoring. -/
theorem read_error_breaks_loop (q : Bool) (s : WorkerState)
    (h : s.stopped = false) :
    log_sound_step q s ReadOutcome.exn = { buf := s.buf, stopped := true } := by
  unfold log_sound_step
  rw [h]
  simp

/-- Witness for the amended C5: a running worker with buffer `[5]` that hits
a read exception ends up stopped with its buffer intact. -/
theorem read_error_breaks_loop_witness :
    log_sound_step true { buf := [5], stopped := false } ReadOutcome.exn
      = { buf := [5], stopped := true } :=
  read_error_breaks_loop true { buf := [5], stopped := false } rfl

-- C6 and C7: the loudness computation of final.py lines 88-90, modelled at
-- the byte level, including numpy int16 wraparound in `signal ** 2` and the
-- NaN produced by `np.mean` on an empty array.

/-- Interpretation of a 16-bit little-endian value as a signed int16
(`np.frombuffer(data, dtype=np.int16)` element decoding). -/
def toInt16 (n : Nat) : Int := if n < 32768 then (n : Int) else (n : Int) - 65536

/-- Decode consecutive little-endian byte pairs into int16 samples. -/
def bytesToInt16 : List Nat → List Int
  | [] => []
  | [_] => []
  | lo :: hi :: rest => toInt16 (lo + 256 * hi) :: bytesToInt16 rest

/-- `np.frombuffer(data, dtype=np.int16)` (final.py line 89): raises
ValueError (modelled `none`) unless the byte count is a multiple of the
element size 2. -/
def frombuffer_int16 (data : List Nat) : Option (List Int) :=
  if data.length % 2 = 0 then some (bytesToInt16 data) else none

/-- Wraparound of an integer into the int16 range [-32768, 32767]. -/
def wrap16 (n : Int) : Int := (n + 32768) % 65536 - 32768

/-- numpy squaring of an int16 array element (`signal ** 2`, final.py line
90): the result dtype stays int16, so the square wraps modulo 2^16. -/
def sq16 (x : Int) : Int := wrap16 (x * x)

/-- `np.mean` over an integer array: the exact mean (computed in float64),
except that the mean of an empty array is NaN (modelled `none`). -/
def npMeanInt (l : List Int) : Option ℚ :=
  if l.length = 0 then none
  else some ((l.map (fun x : Int => (x : ℚ))).sum / l.length)

/-- The radicand of `volume = np.sqrt(np.mean(signal ** 2))` (final.py line
90): the mean of the wrapped squares.  The volume is the square root of
this; it is NaN when the radicand is missing (empty frame) or negative. -/
def volumeSq (signal : List Int) : Option ℚ := npMeanInt (signal.map sq16)

/-- The loudness pipeline of final.py lines 88-90 from the raw frame bytes:
decode as int16, square with wraparound, take the mean.  `none` models a
raised exception (malformed frame) or a NaN mean (empty frame). -/
def loudnessRadicand (data : List Nat) : Option ℚ :=
  (frombuffer_int16 data).bind volumeSq

/-- Counterexample to C6 as stated: an empty frame does not yield a loudness
of zero — `np.mean` of the empty decoded array is NaN (modelled `none`), so
the volume is NaN, not 0. -/
theorem empty_frame_not_zero :
    loudnessRadicand [] = none ∧ loudnessRadicand [] ≠ some 0 := by
  refine ⟨rfl, ?_⟩
  intro h
  exact Option.noConfusion (rfl.trans h : (none : Option ℚ) = some 0)

/-- Amended C6: the loudness computation is not total: a malformed frame
(odd byte count) raises ValueError in `np.frombuffer`, an empty frame yields
a NaN mean, and only a well-formed non-empty frame yields a defined
radicand. -/
theorem loudness_not_total (data : List Nat) :
    (data.length % 2 ≠ 0 → loudnessRadicand data = none) ∧
    (data = [] → loudnessRadicand data = none) ∧
    (data.length % 2 = 0 → data ≠ [] →
      ∃ m, loudnessRadicand data = some m) := by
  refine ⟨?_, ?_, ?_⟩
  · intro hodd
    unfold loudnessRadicand frombuffer_int16
    rw [if_neg hodd]
    rfl
  · rintro rfl
    rfl
  · intro heven hne
    obtain ⟨a, t, rfl⟩ : ∃ a t, data = a :: t := by
      cases data with
      | nil => exact absurd rfl hne
      | cons a t => exact ⟨a, t, rfl⟩
    cases t with
    | nil => simp at heven
    | cons b rest =>
      have h1 : frombuffer_int16 (a :: b :: rest)
          = some (bytesToInt16 (a :: b :: rest)) := by
        unfold frombuffer_int16
        rw [if_pos heven]
      have hlen : ¬ ((bytesToInt16 (a :: b :: rest)).map sq16).length = 0 := by
        simp [bytesToInt16]
      have h2 : volumeSq (bytesToInt16 (a :: b :: rest))
          = some ((((bytesToInt16 (a :: b :: rest)).map sq16).map
                (fun x : Int => (x : ℚ))).sum
              / ((bytesToInt16 (a :: b :: rest)).map sq16).length) := by
        unfold volumeSq npMeanInt
        rw [if_neg hlen]
      refine ⟨(((bytesToInt16 (a :: b :: rest)).map sq16).map
            (fun x : Int => (x : ℚ))).sum
          / ((bytesToInt16 (a :: b :: rest)).map sq16).length, ?_⟩
      unfold loudnessRadicand
      rw [h1]
      exact h2

/-- Witness for the amended C6: the one-byte frame `[1]` is malformed and
yields the exception branch, while the two-byte frame `[2, 3]` yields a
defined radicand. -/
theorem loudness_not_total_witness :
    loudnessRadicand [1] = none ∧ (∃ m, loudnessRadicand [2, 3] = some m) :=
  ⟨(loudness_not_total [1]).1 (by decide),
    (loudness_not_total [2, 3]).2.2 (by decide) (by decide)⟩

/-- Claim C7 at the failing input: the single-sample frame `182` (bytes
`[182, 0]`) is a valid 16-bit frame, but because `signal ** 2` stays int16,
`182 ^ 2 = 33124` wraps to `-32412`; the mean of the squares is negative, so
`np.sqrt` yields NaN — not a non-negative real bounded by 32767 (the true
RMS of this frame would be 182). -/
theorem int16_square_overflow :
    loudnessRadicand [182, 0] = some (-32412) ∧
    volumeSq [182] = some (-32412) ∧
    ((-32412 : ℚ) < 0) := by
  have h1 : frombuffer_int16 [182, 0] = some [182] := by decide
  have h2 : volumeSq [182] = some (-32412) := by
    unfold volumeSq npMeanInt
    rw [if_neg (by simp)]
    norm_num [sq16, wrap16]
  refine ⟨?_, h2, by norm_num⟩
  unfold loudnessRadicand
  rw [h1]
  exact h2

-- C8: shutdown (exit_method) is idempotent and never unsets the flag.

/-- `exit_method` (final.py lines 113-118): sets the global `quit_flag` to
True, whatever its current value. -/
def exit_method (_q : Bool) : Bool := true

/-- The quit flag after `n` successive `exit_method` calls starting from
flag state `s` — `exit_method` is the only place the program writes the
flag after initialisation. -/
def applyExitCalls : Nat → Bool → Bool
  | 0, s => s
  | n + 1, s => applyExitCalls n (exit_method s)

/-- Claim C8: triggering shutdown is idempotent: one call sets the quit flag,
a second call leaves the state unchanged (still stopping) with no additional
effect, and once the flag is set, any further sequence of shutdown calls
leaves it set — it never returns to running. -/
theorem shutdown_idempotent :
    (∀ s : Bool, exit_method s = true) ∧
    (∀ s : Bool, exit_method (exit_method s) = exit_method s) ∧
    (∀ n : Nat, applyExitCalls n true = true) := by
  refine ⟨fun s => rfl, fun s => rfl, fun n => ?_⟩
  induction n with
  | zero => rfl
  | succ k ih => exact ih
